import Mathlib

/-!
Verification development for the exercise-flow state machine
(`useExerciseFlow` in `src/hooks/useSpeech.ts`).

The hook is a single-threaded, wall-clock-driven countdown sequencer.
We embed it shallowly:
* React `useState` / `useRef` cells become fields of `FlowState`.
* `setInterval` is modelled by an optional `CountdownTimer` record
  (start timestamp, duration, end callback) plus an explicit `tick`
  event carrying the current wall-clock time `now : Nat` (milliseconds);
  a tick recomputes `remainingMs = max 0 (duration - (now - start))`
  exactly as the interval callback does, and runs the end callback when
  it reaches zero.  Nat subtraction is truncated, which models the
  source's `Math.max(0, ...)` clamping.
* `setTimeout` for the result phase is modelled by an optional
  `ResultTimeout` record.  A fired timeout keeps its handle (the source
  never nulls `resultTimeoutRef` inside the timeout callback), so the
  record carries a `fired` flag; "pending" means present and not fired.
* The countdown end callbacks are the closures the source actually
  creates: the `questionOnEnd` closure from `start` (capturing the
  `delayOptionsCountdown` flag), the default options timeout
  `() => enterResult(-1)`, and caller-supplied timeout handlers, which
  are opaque to the controller and are modelled as `EndCb.custom id`
  (their own re-entrant calls into the controller are represented as
  further operations in the event sequence).
* Fire-and-forget collaborator callbacks (`onQuestionShown`,
  `onAnswerPhaseStarted`, `onComplete`, custom timeout handlers) are
  recorded as emitted `Emit` events.
* Every operation takes the current time `now : Nat` explicitly where
  the source reads `Date.now()`.
-/

namespace ExerciseFlow

/-- The `ExercisePhase` union type of the source. -/
inductive Phase where
  | idle
  | question
  | options
  | processing
  | result
deriving DecidableEq, Repr

/-- The countdown end callbacks the source stores in refs: the
`questionOnEnd` closure built by `start` (capturing
`delayOptionsCountdown`), the default options timeout
`() => enterResult(-1)`, and an opaque caller-supplied timeout
handler. -/
inductive EndCb where
  | questionEnd (delayOptionsCountdown : Bool)
  | optionsTimeout
  | custom (id : Nat)
deriving DecidableEq, Repr

/-- The `setInterval` countdown: start timestamp, duration and the
`onEnd` callback of `startCountdown`. -/
structure CountdownTimer where
  start : Nat
  duration : Nat
  onEnd : EndCb
deriving DecidableEq, Repr

/-- The result-phase `setTimeout`: when it was scheduled, its duration,
and whether it has already fired (the source keeps the stale handle in
`resultTimeoutRef` after firing). -/
structure ResultTimeout where
  setAt : Nat
  duration : Nat
  fired : Bool
deriving DecidableEq, Repr

/-- `ExerciseFlowConfig` merged with `DEFAULT_CONFIG`. -/
structure FlowConfig where
  questionDuration : Nat := 1000
  optionsDuration : Nat := 4000
  resultDuration : Nat := 1500
deriving DecidableEq, Repr

/-- All `useState` and `useRef` cells of `useExerciseFlow`. -/
structure FlowState where
  phase : Phase := .idle
  remainingMs : Nat := 0
  selectedIndex : Option Int := none
  isPaused : Bool := false
  timer : Option CountdownTimer := none
  resultTimeout : Option ResultTimeout := none
  optionsStartTime : Option Nat := none
  responseTimeMs : Option Nat := none
  pausedRemaining : Nat := 0
  pausedOnEnd : Option EndCb := none
  currentOnEnd : Option EndCb := none
  resultStartTime : Nat := 0
  pausedResultRemaining : Nat := 0
  pendingCountdown : Option (Nat × EndCb) := none
deriving DecidableEq, Repr

/-- The state of a freshly constructed controller. -/
def initState : FlowState := {}

/-- Observable calls to external collaborators. -/
inductive Emit where
  | onQuestionShown
  | onAnswerPhaseStarted
  | onComplete
  | customCall (id : Nat)
deriving DecidableEq, Repr

/-- Source `clearTimer`: clears both the interval and the result timeout. -/
def clearTimer (s : FlowState) : FlowState :=
  { s with timer := none, resultTimeout := none }

/-- Source `startCountdown(duration, onEnd)`: clears any running interval
(replacing the `timer` field subsumes the `clearInterval` call),
records `onEnd` in `currentOnEndRef`, presets `remainingMs`, and
schedules the interval. -/
def startCountdown (duration : Nat) (onEnd : EndCb) (now : Nat)
    (s : FlowState) : FlowState :=
  { s with currentOnEnd := some onEnd,
           remainingMs := duration,
           timer := some ⟨now, duration, onEnd⟩ }

/-- Source `enterProcessing()`. -/
def enterProcessing (now : Nat) (s : FlowState) : FlowState :=
  let s1 := { clearTimer s with phase := Phase.processing }
  match s1.optionsStartTime, s1.responseTimeMs with
  | some t0, none => { s1 with responseTimeMs := some (now - t0) }
  | _, _ => s1

/-- Source `enterResult(optionIndex, skipResultTimeout)`. -/
def enterResult (cfg : FlowConfig) (optionIndex : Int)
    (skipResultTimeout : Bool) (now : Nat) (s : FlowState) : FlowState :=
  let s1 := { clearTimer s with selectedIndex := some optionIndex,
                                phase := Phase.result }
  let s2 := match s1.optionsStartTime, s1.responseTimeMs with
    | some t0, none => { s1 with responseTimeMs := some (now - t0) }
    | _, _ => s1
  if skipResultTimeout then s2
  else { s2 with resultStartTime := now,
                 resultTimeout := some ⟨now, cfg.resultDuration, false⟩ }

/-- Running one of the stored countdown end callbacks. -/
def runOnEnd (cfg : FlowConfig) (cb : EndCb) (now : Nat)
    (s : FlowState) : FlowState × List Emit :=
  match cb with
  | .questionEnd delayOptionsCountdown =>
      let s1 := { s with phase := Phase.options, optionsStartTime := some now }
      if delayOptionsCountdown then (s1, [Emit.onAnswerPhaseStarted])
      else
        (startCountdown cfg.optionsDuration EndCb.optionsTimeout now s1,
         [Emit.onAnswerPhaseStarted])
  | .optionsTimeout => (enterResult cfg (-1) false now s, [])
  | .custom id => (s, [Emit.customCall id])

/-- Source `startResultTimeout()`: no-op outside the `result` phase; otherwise
replaces the result timeout (it does not touch `resultStartTimeRef`). -/
def startResultTimeout (cfg : FlowConfig) (now : Nat)
    (s : FlowState) : FlowState :=
  if s.phase ≠ Phase.result then s
  else { s with resultTimeout := some ⟨now, cfg.resultDuration, false⟩ }

/-- Source `start(options)`: clears timers, resets the selection, enters
`question`, and either arms a pending countdown (delayed mode) or starts
the question countdown. -/
def start (cfg : FlowConfig) (delayOptionsCountdown delayQuestionCountdown : Bool)
    (now : Nat) (s : FlowState) : FlowState × List Emit :=
  let s1 := { clearTimer s with selectedIndex := none, phase := Phase.question }
  let qcb := EndCb.questionEnd delayOptionsCountdown
  if delayQuestionCountdown then
    ({ s1 with remainingMs := cfg.questionDuration,
               pendingCountdown := some (cfg.questionDuration, qcb),
               currentOnEnd := some qcb }, [Emit.onQuestionShown])
  else
    (startCountdown cfg.questionDuration qcb now s1, [Emit.onQuestionShown])

/-- Source `startOptionsCountdown(onTimeout?)`: only in the `options` phase;
resets `optionsStartTime` and starts the options countdown with the
supplied handler or the default `enterResult(-1)`. -/
def startOptionsCountdown (cfg : FlowConfig) (onTimeout : Option Nat)
    (now : Nat) (s : FlowState) : FlowState :=
  if s.phase = Phase.options then
    let cb := match onTimeout with
      | some id => EndCb.custom id
      | none => EndCb.optionsTimeout
    startCountdown cfg.optionsDuration cb now
      { s with optionsStartTime := some now }
  else s

/-- Source `startQuestionCountdown()`: consumes the pending countdown
descriptor if any and starts it; otherwise a no-op. -/
def startQuestionCountdown (now : Nat) (s : FlowState) : FlowState :=
  match s.pendingCountdown with
  | some (d, cb) =>
      startCountdown d cb now
        { s with pendingCountdown := none, isPaused := false }
  | none => s

/-- Source `select(index, skipResultTimeout)`: ignored unless the phase is
`options` and nothing is selected yet. -/
def select (cfg : FlowConfig) (index : Int) (skipResultTimeout : Bool)
    (now : Nat) (s : FlowState) : FlowState :=
  if s.phase ≠ Phase.options ∨ s.selectedIndex ≠ none then s
  else enterResult cfg index skipResultTimeout now s

/-- Source `updateSelectedIndex(index)`: only in the `result` phase. -/
def updateSelectedIndex (index : Int) (s : FlowState) : FlowState :=
  if s.phase = Phase.result then { s with selectedIndex := some index }
  else s

/-- Source `pause()`: stops the interval if any, unconditionally snapshots
`(remainingMs, currentOnEnd)`, and if the result-timeout handle is
present (fired or not — the source only checks the ref) clears it and
snapshots `max 0 (resultDuration - (now - resultStartTime))`. -/
def pause (cfg : FlowConfig) (now : Nat) (s : FlowState) : FlowState :=
  let s1 := { s with timer := none,
                     pausedRemaining := s.remainingMs,
                     pausedOnEnd := s.currentOnEnd }
  let s2 := match s1.resultTimeout with
    | some _ =>
        { s1 with resultTimeout := none,
                  pausedResultRemaining :=
                    cfg.resultDuration - (now - s1.resultStartTime) }
    | none => s1
  { s2 with isPaused := true }

/-- Source `resume()`: clears `isPaused`; restarts a paused result timeout
first (early return, which leaves `pausedOnEnd` untouched); otherwise
restarts the snapshotted countdown, running its callback synchronously
when the snapshotted remaining time is zero. -/
def resume (cfg : FlowConfig) (now : Nat) (s : FlowState) : FlowState × List Emit :=
  let s1 := { s with isPaused := false }
  if s1.phase = Phase.result ∧ s1.pausedResultRemaining > 0 then
    ({ s1 with resultStartTime := now,
               resultTimeout := some ⟨now, s1.pausedResultRemaining, false⟩,
               pausedResultRemaining := 0 }, [])
  else
    match s1.pausedOnEnd with
    | some cb =>
        if s1.pausedRemaining > 0 then
          let s2 := startCountdown s1.pausedRemaining cb now s1
          ({ s2 with pausedOnEnd := none }, [])
        else
          let p := runOnEnd cfg cb now s1
          ({ p.1 with pausedOnEnd := none }, p.2)
    | none => (s1, [])

/-- Source `reset()`: clears timers and every ref and state cell. -/
def reset (s : FlowState) : FlowState :=
  { clearTimer s with
      phase := Phase.idle,
      selectedIndex := none,
      remainingMs := 0,
      isPaused := false,
      optionsStartTime := none,
      responseTimeMs := none,
      pausedRemaining := 0,
      pausedOnEnd := none,
      currentOnEnd := none,
      pendingCountdown := none,
      resultStartTime := 0,
      pausedResultRemaining := 0 }

/-- Source `getResponseTimeMs()`. -/
def getResponseTimeMs (s : FlowState) : Option Nat :=
  s.responseTimeMs

/-- One firing of the `setInterval` callback of `startCountdown` at
wall-clock time `now`; no-op when no interval is scheduled. -/
def tick (cfg : FlowConfig) (now : Nat) (s : FlowState) : FlowState × List Emit :=
  match s.timer with
  | none => (s, [])
  | some t =>
      let remaining := t.duration - (now - t.start)
      let s1 := { s with remainingMs := remaining }
      if remaining = 0 then
        runOnEnd cfg t.onEnd now { s1 with timer := none }
      else (s1, [])

/-- The result-phase `setTimeout` callback firing: calls `onComplete`
and marks the handle fired (the source never nulls the ref there). -/
def resultFire (now : Nat) (s : FlowState) : FlowState × List Emit :=
  match s.resultTimeout with
  | some r =>
      if r.fired = false ∧ r.setAt + r.duration ≤ now then
        ({ s with resultTimeout := some ⟨r.setAt, r.duration, true⟩ },
         [Emit.onComplete])
      else (s, [])
  | none => (s, [])

/-- One event on a controller instance: an exposed operation being
called, or one of the two kinds of scheduled timer callbacks firing. -/
inductive Op where
  | start (delayOptionsCountdown delayQuestionCountdown : Bool) (now : Nat)
  | startOptionsCountdown (onTimeout : Option Nat) (now : Nat)
  | startQuestionCountdown (now : Nat)
  | select (index : Int) (skipResultTimeout : Bool) (now : Nat)
  | enterProcessing (now : Nat)
  | enterResult (index : Int) (skipResultTimeout : Bool) (now : Nat)
  | startResultTimeout (now : Nat)
  | updateSelectedIndex (index : Int)
  | pause (now : Nat)
  | resume (now : Nat)
  | reset
  | tick (now : Nat)
  | resultFire (now : Nat)
deriving DecidableEq, Repr

/-- Effect of one event, with the collaborator calls it emits. -/
def stepE (cfg : FlowConfig) (s : FlowState) : Op → FlowState × List Emit
  | .start dOpt dQ now => start cfg dOpt dQ now s
  | .startOptionsCountdown ot now => (startOptionsCountdown cfg ot now s, [])
  | .startQuestionCountdown now => (startQuestionCountdown now s, [])
  | .select i sk now => (select cfg i sk now s, [])
  | .enterProcessing now => (enterProcessing now s, [])
  | .enterResult i sk now => (enterResult cfg i sk now s, [])
  | .startResultTimeout now => (startResultTimeout cfg now s, [])
  | .updateSelectedIndex i => (updateSelectedIndex i s, [])
  | .pause now => (pause cfg now s, [])
  | .resume now => resume cfg now s
  | .reset => (reset s, [])
  | .tick now => tick cfg now s
  | .resultFire now => resultFire now s

/-- State effect of one event. -/
def step (cfg : FlowConfig) (s : FlowState) (op : Op) : FlowState :=
  (stepE cfg s op).1

/-- State after a sequence of events. -/
def run (cfg : FlowConfig) (s : FlowState) (ops : List Op) : FlowState :=
  ops.foldl (step cfg) s

/-- Whether the result timeout is pending (scheduled and not yet
fired). -/
def resultTimeoutPending (s : FlowState) : Bool :=
  match s.resultTimeout with
  | some r => !r.fired
  | none => false

/-- How many timers are pending: the interval plus a pending result
timeout. -/
def pendingTimerCount (s : FlowState) : Nat :=
  (if s.timer.isSome then 1 else 0) +
    (if resultTimeoutPending s then 1 else 0)

/-- The default configuration (`DEFAULT_CONFIG`). -/
def cfg0 : FlowConfig := {}

/-- If the options phase was never entered since the last reset (no
options start timestamp), no response time has been captured. -/
def respTimeInv (s : FlowState) : Prop :=
  s.optionsStartTime = none → s.responseTimeMs = none

/-- The calls claim C1 ranges over: the four listed operations plus the
timer callbacks that drive the phase transitions between them. -/
def isC1Op : Op → Bool
  | .start _ _ _ => true
  | .startOptionsCountdown _ _ => true
  | .startQuestionCountdown _ => true
  | .select _ _ _ => true
  | .tick _ => true
  | .resultFire _ => true
  | _ => false

/-- Checks that `startQuestionCountdown` is only issued while the phase is
`question` (the intended use of the deferred countdown); any other
operation is unrestricted. -/
def qcOkOp (s : FlowState) : Op → Bool
  | Op.startQuestionCountdown _ => s.phase == Phase.question
  | _ => true

/-- Along the whole sequence, every `startQuestionCountdown` call
happens while the phase is `question`. -/
def qcInQuestionOnly (cfg : FlowConfig) : FlowState → List Op → Bool
  | _, [] => true
  | s, op :: rest => qcOkOp s op && qcInQuestionOnly cfg (step cfg s op) rest

/-- A pending result timeout excludes a pending interval, and only
occurs in the `result` phase. -/
def oneTimerInv (s : FlowState) : Prop :=
  resultTimeoutPending s = true → s.timer = none ∧ s.phase = Phase.result

/-- The operation sequence refuting claim C1 as stated: a delayed
`start` leaves a pending countdown descriptor; a second, non-delayed
`start` does not clear it; once the run reaches the `result` phase,
`startQuestionCountdown` consumes the stale descriptor and starts an
interval while the result timeout is still pending. -/
def c1CounterOps : List Op :=
  [Op.start false true 0, Op.start false false 10, Op.tick 1010,
   Op.select 0 false 1020, Op.startQuestionCountdown 1030]

/-- In every reachable state, if no countdown end-callback has been
registered since the last reset (`currentOnEnd` is null), then no
interval is running, no paused snapshot exists and the displayed
remaining time is zero. -/
def armedInv (s : FlowState) : Prop :=
  s.currentOnEnd = none →
    s.timer = none ∧ s.pausedOnEnd = none ∧
    s.pausedRemaining = 0 ∧ s.remainingMs = 0

end ExerciseFlow

namespace ExerciseFlow


lemma enterResult_phase (cfg : FlowConfig) (i : Int) (sk : Bool) (now : Nat)
    (s : FlowState) : (enterResult cfg i sk now s).phase = Phase.result := by
  obtain ⟨f1, f2, f3, f4, f5, f6, f7, f8, f9, f10, f11, f12, f13, f14⟩ := s
  cases sk <;> cases f7 <;> cases f8 <;> rfl

lemma enterResult_selectedIndex (cfg : FlowConfig) (i : Int) (sk : Bool) (now : Nat)
    (s : FlowState) : (enterResult cfg i sk now s).selectedIndex = some i := by
  obtain ⟨f1, f2, f3, f4, f5, f6, f7, f8, f9, f10, f11, f12, f13, f14⟩ := s
  cases sk <;> cases f7 <;> cases f8 <;> rfl

lemma select_blocked (cfg : FlowConfig) (i : Int) (sk : Bool) (now : Nat)
    (s : FlowState) (h : s.phase ≠ Phase.options ∨ s.selectedIndex ≠ none) :
    select cfg i sk now s = s := by
  unfold select
  rw [if_pos h]

/-- C8: after any sequence of operations, `reset()` returns the exact
initial controller state (phase `idle`, no selection, zero remaining
time, not paused, all bookkeeping cleared), so a subsequent `start`
behaves exactly as on a freshly constructed controller. -/
theorem c8_reset (s : FlowState) :
    reset s = initState ∧
    (∀ (cfg : FlowConfig) (dOpt dQ : Bool) (now : Nat),
      start cfg dOpt dQ now (reset s) = start cfg dOpt dQ now initState) :=
  ⟨rfl, fun _ _ _ _ => rfl⟩

/-- C4: in the `options` phase with nothing selected, `select(i)`
enters `result` with `selectedIndex = i`, and a later `select(j)` with
`i ≠ j` is a complete no-op; in general `select` is ignored whenever
the phase is not `options` or something is already selected, and (being
a total function) never raises an error. -/
theorem c4_select (cfg : FlowConfig) (s : FlowState) (i j : Int)
    (sk1 sk2 : Bool) (n1 n2 : Nat)
    (hphase : s.phase = Phase.options) (hsel : s.selectedIndex = none)
    (_hij : i ≠ j) :
    (select cfg j sk2 n2 (select cfg i sk1 n1 s)).selectedIndex = some i ∧
    (select cfg j sk2 n2 (select cfg i sk1 n1 s)).phase = Phase.result ∧
    select cfg j sk2 n2 (select cfg i sk1 n1 s) = select cfg i sk1 n1 s ∧
    (∀ (s' : FlowState) (k : Int) (sk : Bool) (n : Nat),
      s'.phase ≠ Phase.options ∨ s'.selectedIndex ≠ none →
      select cfg k sk n s' = s') := by
  have h1 : select cfg i sk1 n1 s = enterResult cfg i sk1 n1 s := by
    unfold select
    rw [if_neg]
    push_neg
    exact ⟨hphase, hsel⟩
  have h2 : select cfg j sk2 n2 (select cfg i sk1 n1 s) = select cfg i sk1 n1 s := by
    apply select_blocked
    left
    rw [h1, enterResult_phase]
    intro h
    cases h
  refine ⟨?_, ?_, h2, fun s' k sk n h => select_blocked cfg k sk n s' h⟩
  · rw [h2, h1, enterResult_selectedIndex]
  · rw [h2, h1, enterResult_phase]

/-- Witness for C4 at a concrete options-phase state. -/
theorem c4_select_witness :
    (select cfg0 5 false 20 (select cfg0 3 false 10
      { initState with phase := Phase.options })).selectedIndex = some 3 :=
  (c4_select cfg0 { initState with phase := Phase.options } 3 5 false false 10 20
    rfl rfl (by decide)).1

end ExerciseFlow

namespace ExerciseFlow

/-- C9: `startOptionsCountdown` outside the `options` phase and
`startResultTimeout` outside the `result` phase leave the state
untouched, start no timer and emit no collaborator call. -/
theorem c9_wrong_phase (cfg : FlowConfig) (s : FlowState) (ot : Option Nat)
    (now : Nat) :
    (s.phase ≠ Phase.options →
      startOptionsCountdown cfg ot now s = s ∧
      stepE cfg s (Op.startOptionsCountdown ot now) = (s, [])) ∧
    (s.phase ≠ Phase.result →
      startResultTimeout cfg now s = s ∧
      stepE cfg s (Op.startResultTimeout now) = (s, [])) := by
  constructor
  · intro h
    have h1 : startOptionsCountdown cfg ot now s = s := by
      unfold startOptionsCountdown
      rw [if_neg h]
    exact ⟨h1, by simp [stepE, h1]⟩
  · intro h
    have h1 : startResultTimeout cfg now s = s := by
      unfold startResultTimeout
      rw [if_pos h]
    exact ⟨h1, by simp [stepE, h1]⟩

/-- Witness for C9 at the idle initial state. -/
theorem c9_wrong_phase_witness :
    startOptionsCountdown cfg0 none 5 initState = initState ∧
    startResultTimeout cfg0 5 initState = initState :=
  ⟨((c9_wrong_phase cfg0 initState none 5).1 (by decide)).1,
   ((c9_wrong_phase cfg0 initState none 5).2 (by decide)).1⟩

lemma enterProcessing_captures (s : FlowState) (t0 now : Nat)
    (h0 : s.optionsStartTime = some t0) (h1 : s.responseTimeMs = none) :
    (enterProcessing now s).responseTimeMs = some (now - t0) := by
  obtain ⟨f1, f2, f3, f4, f5, f6, f7, f8, f9, f10, f11, f12, f13, f14⟩ := s
  simp only [FlowState.optionsStartTime] at h0
  simp only [FlowState.responseTimeMs] at h1
  subst h0; subst h1
  rfl

lemma enterProcessing_optionsStartTime (s : FlowState) (now : Nat) :
    (enterProcessing now s).optionsStartTime = s.optionsStartTime := by
  obtain ⟨f1, f2, f3, f4, f5, f6, f7, f8, f9, f10, f11, f12, f13, f14⟩ := s
  cases f7 <;> cases f8 <;> rfl

lemma enterProcessing_keeps (s : FlowState) (r : Nat) (now : Nat)
    (h : s.responseTimeMs = some r) :
    (enterProcessing now s).responseTimeMs = some r := by
  obtain ⟨f1, f2, f3, f4, f5, f6, f7, f8, f9, f10, f11, f12, f13, f14⟩ := s
  simp only [FlowState.responseTimeMs] at h
  subst h
  cases f7 <;> rfl

lemma enterResult_captures (cfg : FlowConfig) (i : Int) (sk : Bool)
    (s : FlowState) (t0 now : Nat)
    (h0 : s.optionsStartTime = some t0) (h1 : s.responseTimeMs = none) :
    (enterResult cfg i sk now s).responseTimeMs = some (now - t0) := by
  obtain ⟨f1, f2, f3, f4, f5, f6, f7, f8, f9, f10, f11, f12, f13, f14⟩ := s
  simp only [FlowState.optionsStartTime] at h0
  simp only [FlowState.responseTimeMs] at h1
  subst h0; subst h1
  cases sk <;> rfl

lemma enterResult_keeps (cfg : FlowConfig) (i : Int) (sk : Bool)
    (s : FlowState) (r : Nat) (now : Nat)
    (h : s.responseTimeMs = some r) :
    (enterResult cfg i sk now s).responseTimeMs = some r := by
  obtain ⟨f1, f2, f3, f4, f5, f6, f7, f8, f9, f10, f11, f12, f13, f14⟩ := s
  simp only [FlowState.responseTimeMs] at h
  subst h
  cases sk <;> cases f7 <;> rfl

/-- C3: with the options phase begun at `t0` and no response time yet
captured, entering `processing` at `t1` records `t1 - t0`; a later
`enterResult` leaves the value unchanged; entering `result` directly at
`t2` records `t2 - t0`; and once a response time is recorded, neither
`enterProcessing` nor `enterResult` ever overwrites it. -/
theorem c3_response_time (cfg : FlowConfig) (s : FlowState) (t0 t1 t2 : Nat)
    (i : Int) (sk : Bool)
    (h0 : s.optionsStartTime = some t0) (h1 : s.responseTimeMs = none) :
    getResponseTimeMs (enterProcessing t1 s) = some (t1 - t0) ∧
    getResponseTimeMs (enterResult cfg i sk t2 (enterProcessing t1 s))
      = some (t1 - t0) ∧
    getResponseTimeMs (enterResult cfg i sk t2 s) = some (t2 - t0) ∧
    (∀ (s' : FlowState) (r : Nat), s'.responseTimeMs = some r →
      getResponseTimeMs (enterProcessing t1 s') = some r ∧
      getResponseTimeMs (enterResult cfg i sk t2 s') = some r) := by
  have hp := enterProcessing_captures s t0 t1 h0 h1
  refine ⟨hp, ?_, enterResult_captures cfg i sk s t0 t2 h0 h1,
    fun s' r h => ⟨enterProcessing_keeps s' r t1 h, enterResult_keeps cfg i sk s' r t2 h⟩⟩
  exact enterResult_keeps cfg i sk _ _ t2 hp

/-- Witness for C3 at concrete timestamps. -/
theorem c3_response_time_witness :
    getResponseTimeMs (enterResult cfg0 4 false 900
      (enterProcessing 350 { initState with optionsStartTime := some 100 }))
      = some 250 :=
  (c3_response_time cfg0 { initState with optionsStartTime := some 100 }
    100 350 900 4 false rfl rfl).2.1

end ExerciseFlow

namespace ExerciseFlow

/-- C7: `start({delayQuestionCountdown: true})` leaves the controller
in phase `question` with `remainingMs = questionDuration`, no interval
scheduled (so ticks are no-ops and it stays there indefinitely), and
the countdown descriptor pending; `startQuestionCountdown` consumes and
clears the descriptor, starting the question countdown with its full
duration; it is a no-op when nothing is pending. -/
theorem c7_deferred_question (cfg : FlowConfig) (s : FlowState) (t0 t1 t2 : Nat) :
    ((start cfg false true t0 s).1.phase = Phase.question ∧
     (start cfg false true t0 s).1.remainingMs = cfg.questionDuration ∧
     (start cfg false true t0 s).1.timer = none ∧
     (start cfg false true t0 s).1.pendingCountdown
        = some (cfg.questionDuration, EndCb.questionEnd false)) ∧
    tick cfg t1 (start cfg false true t0 s).1 = ((start cfg false true t0 s).1, []) ∧
    ((startQuestionCountdown t2 (start cfg false true t0 s).1).timer
        = some ⟨t2, cfg.questionDuration, EndCb.questionEnd false⟩ ∧
     (startQuestionCountdown t2 (start cfg false true t0 s).1).pendingCountdown
        = none ∧
     (startQuestionCountdown t2 (start cfg false true t0 s).1).remainingMs
        = cfg.questionDuration) ∧
    (∀ (s' : FlowState) (t : Nat), s'.pendingCountdown = none →
      startQuestionCountdown t s' = s') := by
  refine ⟨⟨rfl, rfl, rfl, rfl⟩, rfl, ⟨rfl, rfl, rfl⟩, fun s' t h => ?_⟩
  obtain ⟨f1, f2, f3, f4, f5, f6, f7, f8, f9, f10, f11, f12, f13, f14⟩ := s'
  simp only [FlowState.pendingCountdown] at h
  subst h
  rfl

/-- Witness for C7 at the default configuration. -/
theorem c7_deferred_question_witness :
    (start cfg0 false true 3 initState).1.remainingMs = 1000 ∧
    startQuestionCountdown 9 initState = initState :=
  ⟨(c7_deferred_question cfg0 initState 3 4 5).1.2.1,
   (c7_deferred_question cfg0 initState 3 4 5).2.2.2 initState 9 rfl⟩

end ExerciseFlow

namespace ExerciseFlow


lemma respTimeInv_enterResult (cfg : FlowConfig) (i : Int) (sk : Bool)
    (now : Nat) (s : FlowState) (h : respTimeInv s) :
    respTimeInv (enterResult cfg i sk now s) := by
  obtain ⟨f1, f2, f3, f4, f5, f6, f7, f8, f9, f10, f11, f12, f13, f14⟩ := s
  unfold respTimeInv at h ⊢
  cases sk <;> cases f7 <;> cases f8 <;> simp_all [enterResult, clearTimer]

lemma respTimeInv_enterProcessing (now : Nat) (s : FlowState)
    (h : respTimeInv s) : respTimeInv (enterProcessing now s) := by
  obtain ⟨f1, f2, f3, f4, f5, f6, f7, f8, f9, f10, f11, f12, f13, f14⟩ := s
  unfold respTimeInv at h ⊢
  cases f7 <;> cases f8 <;> simp_all [enterProcessing, clearTimer]

lemma respTimeInv_runOnEnd (cfg : FlowConfig) (cb : EndCb) (now : Nat)
    (s : FlowState) (h : respTimeInv s) :
    respTimeInv (runOnEnd cfg cb now s).1 := by
  cases cb with
  | questionEnd d =>
      cases d
      · intro hn
        exact absurd hn (Option.some_ne_none now)
      · intro hn
        exact absurd hn (Option.some_ne_none now)
  | optionsTimeout => exact respTimeInv_enterResult cfg (-1) false now s h
  | custom id => exact h

lemma respTimeInv_step (cfg : FlowConfig) (op : Op) (s : FlowState)
    (h : respTimeInv s) : respTimeInv (step cfg s op) := by
  cases op with
  | start dO dQ now => cases dQ <;> exact h
  | startOptionsCountdown ot now =>
      by_cases hp : s.phase = Phase.options
      · show respTimeInv (startOptionsCountdown cfg ot now s)
        unfold startOptionsCountdown
        rw [if_pos hp]
        intro hn
        exact absurd hn (Option.some_ne_none now)
      · show respTimeInv (startOptionsCountdown cfg ot now s)
        unfold startOptionsCountdown
        rw [if_neg hp]
        exact h
  | startQuestionCountdown now =>
      obtain ⟨f1, f2, f3, f4, f5, f6, f7, f8, f9, f10, f11, f12, f13, f14⟩ := s
      cases f14 with
      | none => exact h
      | some p => obtain ⟨d, cb⟩ := p; exact h
  | select i sk now =>
      by_cases hg : s.phase ≠ Phase.options ∨ s.selectedIndex ≠ none
      · show respTimeInv (select cfg i sk now s)
        unfold select
        rw [if_pos hg]
        exact h
      · show respTimeInv (select cfg i sk now s)
        unfold select
        rw [if_neg hg]
        exact respTimeInv_enterResult cfg i sk now s h
  | enterProcessing now => exact respTimeInv_enterProcessing now s h
  | enterResult i sk now => exact respTimeInv_enterResult cfg i sk now s h
  | startResultTimeout now =>
      by_cases hp : s.phase ≠ Phase.result
      · show respTimeInv (startResultTimeout cfg now s)
        unfold startResultTimeout
        rw [if_pos hp]
        exact h
      · show respTimeInv (startResultTimeout cfg now s)
        unfold startResultTimeout
        rw [if_neg hp]
        exact h
  | updateSelectedIndex i =>
      by_cases hp : s.phase = Phase.result
      · show respTimeInv (updateSelectedIndex i s)
        unfold updateSelectedIndex
        rw [if_pos hp]
        exact h
      · show respTimeInv (updateSelectedIndex i s)
        unfold updateSelectedIndex
        rw [if_neg hp]
        exact h
  | pause now =>
      obtain ⟨f1, f2, f3, f4, f5, f6, f7, f8, f9, f10, f11, f12, f13, f14⟩ := s
      cases f6 <;> exact h
  | resume now =>
      show respTimeInv (resume cfg now s).1
      unfold resume
      by_cases hc : ({ s with isPaused := false } : FlowState).phase = Phase.result ∧
          ({ s with isPaused := false } : FlowState).pausedResultRemaining > 0
      · rw [if_pos hc]
        exact h
      · rw [if_neg hc]
        rcases hoe : ({ s with isPaused := false } : FlowState).pausedOnEnd with _ | cb
        · simp only [hoe]
          exact h
        · simp only [hoe]
          by_cases hr : ({ s with isPaused := false } : FlowState).pausedRemaining > 0
          · rw [if_pos hr]
            exact h
          · rw [if_neg hr]
            exact respTimeInv_runOnEnd cfg cb now _ h
  | reset => intro _; rfl
  | tick now =>
      show respTimeInv (tick cfg now s).1
      unfold tick
      rcases ht : s.timer with _ | t
      · simp only [ht]
        exact h
      · simp only [ht]
        by_cases hz : t.duration - (now - t.start) = 0
        · rw [if_pos hz]
          exact respTimeInv_runOnEnd cfg t.onEnd now _ h
        · rw [if_neg hz]
          exact h
  | resultFire now =>
      show respTimeInv (resultFire now s).1
      unfold resultFire
      rcases ht : s.resultTimeout with _ | r
      · simp only [ht]
        exact h
      · simp only [ht]
        by_cases hc : r.fired = false ∧ r.setAt + r.duration ≤ now
        · rw [if_pos hc]
          exact h
        · rw [if_neg hc]
          exact h

lemma respTimeInv_run (cfg : FlowConfig) (ops : List Op) (s : FlowState)
    (h : respTimeInv s) : respTimeInv (run cfg s ops) := by
  induction ops generalizing s with
  | nil => exact h
  | cons op rest ih => exact ih (step cfg s op) (respTimeInv_step cfg op s h)

end ExerciseFlow

namespace ExerciseFlow

lemma enterResult_optionsStartTime (cfg : FlowConfig) (i : Int) (sk : Bool)
    (now : Nat) (s : FlowState) :
    (enterResult cfg i sk now s).optionsStartTime = s.optionsStartTime := by
  obtain ⟨f1, f2, f3, f4, f5, f6, f7, f8, f9, f10, f11, f12, f13, f14⟩ := s
  cases sk <;> cases f7 <;> cases f8 <;> rfl

/-- C10: in every reachable state in which no options start timestamp
was recorded, `getResponseTimeMs()` returns null, and it still returns
null after `enterProcessing` and/or `enterResult` from that state. -/
theorem c10_no_options_no_response (cfg : FlowConfig) (ops : List Op)
    (t1 t2 : Nat) (i : Int) (sk : Bool)
    (h : (run cfg initState ops).optionsStartTime = none) :
    getResponseTimeMs (run cfg initState ops) = none ∧
    getResponseTimeMs (enterProcessing t1 (run cfg initState ops)) = none ∧
    getResponseTimeMs (enterResult cfg i sk t2 (run cfg initState ops)) = none ∧
    getResponseTimeMs
      (enterResult cfg i sk t2 (enterProcessing t1 (run cfg initState ops)))
      = none := by
  have hInv : respTimeInv (run cfg initState ops) :=
    respTimeInv_run cfg ops initState (fun _ => rfl)
  have hp : respTimeInv (enterProcessing t1 (run cfg initState ops)) :=
    respTimeInv_enterProcessing t1 _ hInv
  refine ⟨hInv h, hp ?_, ?_, ?_⟩
  · rw [enterProcessing_optionsStartTime]
    exact h
  · exact respTimeInv_enterResult cfg i sk t2 _ hInv
      (by rw [enterResult_optionsStartTime]; exact h)
  · exact respTimeInv_enterResult cfg i sk t2 _ hp
      (by rw [enterResult_optionsStartTime, enterProcessing_optionsStartTime]; exact h)

/-- Witness for C10 after a `start` that never reached `options`. -/
theorem c10_no_options_no_response_witness :
    getResponseTimeMs
      (enterResult cfg0 2 false 40
        (enterProcessing 30 (run cfg0 initState [Op.start false false 0])))
      = none :=
  (c10_no_options_no_response cfg0 [Op.start false false 0] 30 40 2 false rfl).2.2.2

end ExerciseFlow

namespace ExerciseFlow





lemma oneTimerInv_enterResult (cfg : FlowConfig) (i : Int) (sk : Bool)
    (now : Nat) (s : FlowState) : oneTimerInv (enterResult cfg i sk now s) := by
  obtain ⟨f1, f2, f3, f4, f5, f6, f7, f8, f9, f10, f11, f12, f13, f14⟩ := s
  cases sk <;> cases f7 <;> cases f8 <;>
    simp [oneTimerInv, resultTimeoutPending, enterResult, clearTimer]

lemma oneTimerInv_runOnEnd (cfg : FlowConfig) (cb : EndCb) (now : Nat)
    (s : FlowState) (hrp : resultTimeoutPending s = false) :
    oneTimerInv (runOnEnd cfg cb now s).1 := by
  cases cb with
  | questionEnd d =>
      cases d
      · intro hp
        rw [show resultTimeoutPending (runOnEnd cfg (EndCb.questionEnd false) now s).1
              = resultTimeoutPending s from rfl, hrp] at hp
        exact Bool.noConfusion hp
      · intro hp
        rw [show resultTimeoutPending (runOnEnd cfg (EndCb.questionEnd true) now s).1
              = resultTimeoutPending s from rfl, hrp] at hp
        exact Bool.noConfusion hp
  | optionsTimeout => exact oneTimerInv_enterResult cfg (-1) false now s
  | custom id =>
      intro hp
      rw [show resultTimeoutPending (runOnEnd cfg (EndCb.custom id) now s).1
            = resultTimeoutPending s from rfl, hrp] at hp
      exact Bool.noConfusion hp

end ExerciseFlow

namespace ExerciseFlow

lemma resultTimeoutPending_false (s : FlowState)
    (h : ¬ resultTimeoutPending s = true) : resultTimeoutPending s = false := by
  cases hb : resultTimeoutPending s
  · rfl
  · exact absurd hb h

lemma oneTimerInv_step (cfg : FlowConfig) (op : Op) (s : FlowState)
    (hop : isC1Op op = true)
    (hqc : ∀ t, op = Op.startQuestionCountdown t → s.phase = Phase.question)
    (h : oneTimerInv s) : oneTimerInv (step cfg s op) := by
  cases op with
  | start dO dQ now =>
      cases dQ
      · intro hp
        rw [show resultTimeoutPending (step cfg s (Op.start dO false now))
              = false from rfl] at hp
        exact Bool.noConfusion hp
      · intro hp
        rw [show resultTimeoutPending (step cfg s (Op.start dO true now))
              = false from rfl] at hp
        exact Bool.noConfusion hp
  | startOptionsCountdown ot now =>
      obtain ⟨f1, f2, f3, f4, f5, f6, f7, f8, f9, f10, f11, f12, f13, f14⟩ := s
      cases f1 <;> first
        | exact h
        | · intro hp
            have hp' : resultTimeoutPending
                ⟨Phase.options, f2, f3, f4, f5, f6, f7, f8, f9, f10, f11,
                 f12, f13, f14⟩ = true := hp
            exact Phase.noConfusion (h hp').2
  | startQuestionCountdown t =>
      have hph := hqc t rfl
      obtain ⟨f1, f2, f3, f4, f5, f6, f7, f8, f9, f10, f11, f12, f13, f14⟩ := s
      simp only [FlowState.phase] at hph
      subst hph
      cases f14 with
      | none => exact h
      | some p =>
          obtain ⟨d, cb⟩ := p
          intro hp
          have hp' : resultTimeoutPending
              ⟨Phase.question, f2, f3, f4, f5, f6, f7, f8, f9, f10, f11,
               f12, f13, some (d, cb)⟩ = true := hp
          exact Phase.noConfusion (h hp').2
  | select i sk now =>
      obtain ⟨f1, f2, f3, f4, f5, f6, f7, f8, f9, f10, f11, f12, f13, f14⟩ := s
      cases f1 <;> cases f3 <;> first
        | exact h
        | exact oneTimerInv_enterResult cfg i sk now _
  | tick now =>
      obtain ⟨f1, f2, f3, f4, f5, f6, f7, f8, f9, f10, f11, f12, f13, f14⟩ := s
      cases f5 with
      | none => exact h
      | some t =>
          have hrp : resultTimeoutPending
              ⟨f1, f2, f3, f4, some t, f6, f7, f8, f9, f10, f11, f12, f13, f14⟩
              = false := by
            apply resultTimeoutPending_false
            intro hb
            exact Option.noConfusion (h hb).1
          show oneTimerInv (tick cfg now _).1
          unfold tick
          dsimp only
          by_cases hz : t.duration - (now - t.start) = 0
          · rw [if_pos hz]
            exact oneTimerInv_runOnEnd cfg t.onEnd now _ hrp
          · rw [if_neg hz]
            intro hp
            exact absurd ((h hp).1) (by intro hc; exact Option.noConfusion hc)
  | resultFire now =>
      obtain ⟨f1, f2, f3, f4, f5, f6, f7, f8, f9, f10, f11, f12, f13, f14⟩ := s
      cases f6 with
      | none => exact h
      | some r =>
          obtain ⟨ra, rb, rc⟩ := r
          show oneTimerInv (resultFire now _).1
          unfold resultFire
          dsimp only
          by_cases hc : rc = false ∧ ra + rb ≤ now
          · rw [if_pos hc]
            intro hp
            simp [resultTimeoutPending] at hp
          · rw [if_neg hc]
            exact h
  | startResultTimeout now => exact Bool.noConfusion hop
  | enterProcessing now => exact Bool.noConfusion hop
  | enterResult i sk now => exact Bool.noConfusion hop
  | updateSelectedIndex i => exact Bool.noConfusion hop
  | pause now => exact Bool.noConfusion hop
  | resume now => exact Bool.noConfusion hop
  | reset => exact Bool.noConfusion hop

end ExerciseFlow

namespace ExerciseFlow

lemma oneTimerInv_run (cfg : FlowConfig) (ops : List Op) :
    ∀ s : FlowState, ops.all isC1Op = true →
      qcInQuestionOnly cfg s ops = true → oneTimerInv s →
      oneTimerInv (run cfg s ops) := by
  induction ops with
  | nil => exact fun s _ _ h => h
  | cons op rest ih =>
      intro s hall hqc h
      rw [List.all_cons, Bool.and_eq_true] at hall
      rw [qcInQuestionOnly, Bool.and_eq_true] at hqc
      refine ih (step cfg s op) hall.2 hqc.2 ?_
      refine oneTimerInv_step cfg op s hall.1 ?_ h
      intro t hop
      subst hop
      have hb := hqc.1
      simp only [qcOkOp] at hb
      exact beq_iff_eq.mp hb

lemma pendingTimerCount_le_one (s : FlowState) (h : oneTimerInv s) :
    pendingTimerCount s ≤ 1 := by
  unfold pendingTimerCount
  by_cases hrp : resultTimeoutPending s = true
  · obtain ⟨ht, _⟩ := h hrp
    simp [ht, hrp]
  · rw [resultTimeoutPending_false s hrp]
    cases s.timer <;> simp

/-- C1 (amended): for every sequence of `start`,
`startOptionsCountdown`, `startQuestionCountdown` and `select` calls —
interleaved with the timer callbacks that drive the transitions — in
which `startQuestionCountdown` is only called during the `question`
phase, at most one timer (interval or result timeout) is pending at any
instant; moreover starting any new countdown replaces, and thereby
cancels, the previously scheduled interval. -/
theorem c1_single_timer (cfg : FlowConfig) (ops : List Op)
    (hall : ops.all isC1Op = true)
    (hqc : qcInQuestionOnly cfg initState ops = true) :
    pendingTimerCount (run cfg initState ops) ≤ 1 ∧
    (∀ (d : Nat) (cb : EndCb) (now : Nat) (s : FlowState),
      (startCountdown d cb now s).timer = some ⟨now, d, cb⟩) := by
  refine ⟨?_, fun _ _ _ _ => rfl⟩
  refine pendingTimerCount_le_one _ ?_
  refine oneTimerInv_run cfg ops initState hall hqc ?_
  intro hp
  exact Bool.noConfusion hp

/-- Witness for C1 on a concrete three-call run. -/
theorem c1_single_timer_witness :
    ([Op.start false false 0, Op.tick 1000, Op.select 2 false 1500] : List Op).all
        isC1Op = true ∧
    pendingTimerCount (run cfg0 initState
      [Op.start false false 0, Op.tick 1000, Op.select 2 false 1500]) ≤ 1 :=
  ⟨by decide,
   (c1_single_timer cfg0 [Op.start false false 0, Op.tick 1000, Op.select 2 false 1500]
      (by decide) (by decide)).1⟩


/-- C1 as stated is false on the code: the sequence `c1CounterOps`
uses only the four listed calls (plus interval callbacks) yet ends with
two timers pending simultaneously (an interval and the unfired result
timeout). -/
theorem c1_counterexample :
    c1CounterOps.all isC1Op = true ∧
    pendingTimerCount (run cfg0 initState c1CounterOps) = 2 ∧
    (run cfg0 initState c1CounterOps).timer ≠ none ∧
    resultTimeoutPending (run cfg0 initState c1CounterOps) = true := by
  decide

end ExerciseFlow

namespace ExerciseFlow


lemma armedInv_enterResult (cfg : FlowConfig) (i : Int) (sk : Bool)
    (now : Nat) (s : FlowState) (h : armedInv s) :
    armedInv (enterResult cfg i sk now s) := by
  obtain ⟨f1, f2, f3, f4, f5, f6, f7, f8, f9, f10, f11, f12, f13, f14⟩ := s
  unfold armedInv at h ⊢
  cases sk <;> cases f7 <;> cases f8 <;> simp_all [enterResult, clearTimer]

lemma armedInv_enterProcessing (now : Nat) (s : FlowState)
    (h : armedInv s) : armedInv (enterProcessing now s) := by
  obtain ⟨f1, f2, f3, f4, f5, f6, f7, f8, f9, f10, f11, f12, f13, f14⟩ := s
  unfold armedInv at h ⊢
  cases f7 <;> cases f8 <;> simp_all [enterProcessing, clearTimer]

lemma armedInv_runOnEnd (cfg : FlowConfig) (cb : EndCb) (now : Nat)
    (s : FlowState) (h : armedInv s) : armedInv (runOnEnd cfg cb now s).1 := by
  cases cb with
  | questionEnd d =>
      cases d
      · intro hc
        exact absurd hc (fun hc => Option.noConfusion hc)
      · exact fun hc => h hc
  | optionsTimeout => exact armedInv_enterResult cfg (-1) false now s h
  | custom id => exact h

lemma armedInv_step (cfg : FlowConfig) (op : Op) (s : FlowState)
    (h : armedInv s) : armedInv (step cfg s op) := by
  cases op with
  | start dO dQ now =>
      cases dQ <;> exact fun hc => absurd hc (fun hc => Option.noConfusion hc)
  | startOptionsCountdown ot now =>
      obtain ⟨f1, f2, f3, f4, f5, f6, f7, f8, f9, f10, f11, f12, f13, f14⟩ := s
      cases f1 <;> first
        | exact h
        | exact fun hc => absurd hc (fun hc => Option.noConfusion hc)
  | startQuestionCountdown t =>
      obtain ⟨f1, f2, f3, f4, f5, f6, f7, f8, f9, f10, f11, f12, f13, f14⟩ := s
      cases f14 with
      | none => exact h
      | some p =>
          obtain ⟨d, cb⟩ := p
          exact fun hc => absurd hc (fun hc => Option.noConfusion hc)
  | select i sk now =>
      obtain ⟨f1, f2, f3, f4, f5, f6, f7, f8, f9, f10, f11, f12, f13, f14⟩ := s
      cases f1 <;> cases f3 <;> first
        | exact h
        | exact armedInv_enterResult cfg i sk now _ h
  | enterProcessing now => exact armedInv_enterProcessing now s h
  | enterResult i sk now => exact armedInv_enterResult cfg i sk now s h
  | startResultTimeout now =>
      by_cases hp : s.phase ≠ Phase.result
      · show armedInv (startResultTimeout cfg now s)
        unfold startResultTimeout
        rw [if_pos hp]
        exact h
      · show armedInv (startResultTimeout cfg now s)
        unfold startResultTimeout
        rw [if_neg hp]
        exact fun hc => h hc
  | updateSelectedIndex i =>
      by_cases hp : s.phase = Phase.result
      · show armedInv (updateSelectedIndex i s)
        unfold updateSelectedIndex
        rw [if_pos hp]
        exact fun hc => h hc
      · show armedInv (updateSelectedIndex i s)
        unfold updateSelectedIndex
        rw [if_neg hp]
        exact h
  | pause now =>
      obtain ⟨f1, f2, f3, f4, f5, f6, f7, f8, f9, f10, f11, f12, f13, f14⟩ := s
      cases f6 with
      | none =>
          intro hc
          obtain ⟨h1, h2, h3, h4⟩ := h hc
          exact ⟨rfl, hc, h4, h4⟩
      | some r =>
          intro hc
          obtain ⟨h1, h2, h3, h4⟩ := h hc
          exact ⟨rfl, hc, h4, h4⟩
  | resume now =>
      obtain ⟨f1, f2, f3, f4, f5, f6, f7, f8, f9, f10, f11, f12, f13, f14⟩ := s
      show armedInv (resume cfg now _).1
      unfold resume
      dsimp only
      by_cases hcnd : f1 = Phase.result ∧ f13 > 0
      · rw [if_pos hcnd]
        exact fun hc => h hc
      · rw [if_neg hcnd]
        cases f10 with
        | none => exact fun hc => h hc
        | some cb =>
            dsimp only
            by_cases hr : f9 > 0
            · rw [if_pos hr]
              exact fun hc => absurd hc (fun hc => Option.noConfusion hc)
            · rw [if_neg hr]
              intro hc
              have hA : armedInv (runOnEnd cfg cb now
                  ⟨f1, f2, f3, false, f5, f6, f7, f8, f9, some cb, f11,
                   f12, f13, f14⟩).1 :=
                armedInv_runOnEnd cfg cb now _ (fun hc' => h hc')
              obtain ⟨h1, h2, h3, h4⟩ := hA hc
              exact ⟨h1, rfl, h3, h4⟩
  | reset => exact fun _ => ⟨rfl, rfl, rfl, rfl⟩
  | tick now =>
      obtain ⟨f1, f2, f3, f4, f5, f6, f7, f8, f9, f10, f11, f12, f13, f14⟩ := s
      cases f5 with
      | none => exact h
      | some t =>
          show armedInv (tick cfg now _).1
          unfold tick
          dsimp only
          by_cases hz : t.duration - (now - t.start) = 0
          · rw [if_pos hz]
            refine armedInv_runOnEnd cfg t.onEnd now _ ?_
            intro hc
            exact absurd (h hc).1 (fun he => Option.noConfusion he)
          · rw [if_neg hz]
            intro hc
            exact absurd (h hc).1 (fun he => Option.noConfusion he)
  | resultFire now =>
      obtain ⟨f1, f2, f3, f4, f5, f6, f7, f8, f9, f10, f11, f12, f13, f14⟩ := s
      cases f6 with
      | none => exact h
      | some r =>
          obtain ⟨ra, rb, rc⟩ := r
          show armedInv (resultFire now _).1
          unfold resultFire
          dsimp only
          by_cases hc : rc = false ∧ ra + rb ≤ now
          · rw [if_pos hc]
            exact fun hcc => h hcc
          · rw [if_neg hc]
            exact h

lemma armedInv_run (cfg : FlowConfig) (ops : List Op) (s : FlowState)
    (h : armedInv s) : armedInv (run cfg s ops) := by
  induction ops generalizing s with
  | nil => exact h
  | cons op rest ih => exact ih (step cfg s op) (armedInv_step cfg op s h)

end ExerciseFlow

namespace ExerciseFlow

lemma pause_noop (cfg : FlowConfig) (now : Nat) (s : FlowState)
    (h1 : s.timer = none) (h2 : s.resultTimeout = none)
    (h3 : s.pausedOnEnd = none) (h4 : s.currentOnEnd = none)
    (h5 : s.pausedRemaining = 0) (h6 : s.remainingMs = 0) :
    pause cfg now s = { s with isPaused := true } := by
  obtain ⟨f1, f2, f3, f4, f5, f6, f7, f8, f9, f10, f11, f12, f13, f14⟩ := s
  simp only [FlowState.timer] at h1
  simp only [FlowState.resultTimeout] at h2
  simp only [FlowState.pausedOnEnd] at h3
  simp only [FlowState.currentOnEnd] at h4
  simp only [FlowState.pausedRemaining] at h5
  simp only [FlowState.remainingMs] at h6
  subst h1; subst h2; subst h3; subst h4; subst h5; subst h6
  rfl

lemma resume_noop (cfg : FlowConfig) (now : Nat) (s : FlowState)
    (hpo : s.pausedOnEnd = none) (hpr : s.pausedResultRemaining = 0) :
    resume cfg now s = ({ s with isPaused := false }, []) := by
  obtain ⟨f1, f2, f3, f4, f5, f6, f7, f8, f9, f10, f11, f12, f13, f14⟩ := s
  simp only [FlowState.pausedOnEnd] at hpo
  simp only [FlowState.pausedResultRemaining] at hpr
  subst hpo; subst hpr
  unfold resume
  rw [if_neg (by simp)]

/-- C2 (amended): if `pause()` is called in a reachable state in which
no countdown has ever been armed since the last reset (no end-callback
registered) and no result timeout exists, it records nothing — the only
change is `isPaused := true`; and `resume()` with no paused countdown
snapshot and no paused result-timeout remaining is a no-op apart from
clearing `isPaused`, emitting no collaborator call. -/
theorem c2_pause_resume (cfg : FlowConfig) (ops : List Op) (np nr : Nat) :
    ((run cfg initState ops).currentOnEnd = none →
     (run cfg initState ops).resultTimeout = none →
     pause cfg np (run cfg initState ops)
       = { run cfg initState ops with isPaused := true }) ∧
    (∀ s : FlowState, s.pausedOnEnd = none → s.pausedResultRemaining = 0 →
      resume cfg nr s = ({ s with isPaused := false }, [])) := by
  constructor
  · intro hc hrt
    have hA := armedInv_run cfg ops initState
      (fun _ => ⟨rfl, rfl, rfl, rfl⟩) hc
    exact pause_noop cfg np _ hA.1 hrt hA.2.1 hc hA.2.2.1 hA.2.2.2
  · exact fun s hpo hpr => resume_noop cfg nr s hpo hpr

/-- Witness for C2 at the reset state. -/
theorem c2_pause_resume_witness :
    pause cfg0 7 (run cfg0 initState [Op.reset])
      = { run cfg0 initState [Op.reset] with isPaused := true } ∧
    resume cfg0 9 initState = ({ initState with isPaused := false }, []) :=
  ⟨(c2_pause_resume cfg0 [Op.reset] 7 9).1 rfl rfl,
   (c2_pause_resume cfg0 [Op.reset] 7 9).2 initState rfl rfl⟩

/-- Refuting C2 as stated: after `start({delayQuestionCountdown: true})`
there is no active countdown timer and no result timeout, yet `pause`
records the armed question callback and its remaining time as a paused
snapshot, and a later `resume` actually starts that countdown. -/
theorem c2_counterexample :
    ((start cfg0 false true 0 initState).1.timer = none ∧
     (start cfg0 false true 0 initState).1.resultTimeout = none) ∧
    (pause cfg0 5 (start cfg0 false true 0 initState).1).pausedOnEnd
        = some (EndCb.questionEnd false) ∧
    (pause cfg0 5 (start cfg0 false true 0 initState).1).pausedRemaining = 1000 ∧
    (resume cfg0 9 (pause cfg0 5 (start cfg0 false true 0 initState).1)).1.timer
        = some ⟨9, 1000, EndCb.questionEnd false⟩ := by
  decide

end ExerciseFlow

namespace ExerciseFlow

/-- C5: starting without delay options and never selecting, once the
question countdown and then the options countdown elapse, the
controller passes through `question`, `options` and `result` with
`selectedIndex = -1` and the result timeout scheduled. -/
theorem c5_timeout_gives_minus_one (cfg : FlowConfig) (t0 t1 t2 : Nat)
    (h1 : t0 + cfg.questionDuration ≤ t1) (h2 : t1 + cfg.optionsDuration ≤ t2) :
    (start cfg false false t0 initState).1.phase = Phase.question ∧
    (tick cfg t1 (start cfg false false t0 initState).1).1.phase
        = Phase.options ∧
    (tick cfg t2 (tick cfg t1 (start cfg false false t0 initState).1).1).1.phase
        = Phase.result ∧
    (tick cfg t2 (tick cfg t1
        (start cfg false false t0 initState).1).1).1.selectedIndex
        = some (-1) ∧
    resultTimeoutPending
      (tick cfg t2 (tick cfg t1 (start cfg false false t0 initState).1).1).1
      = true := by
  have hz1 : cfg.questionDuration - (t1 - t0) = 0 := by omega
  have hz2 : cfg.optionsDuration - (t2 - t1) = 0 := by omega
  have e1 : (start cfg false false t0 initState).1
      = ⟨Phase.question, cfg.questionDuration, none, false,
         some ⟨t0, cfg.questionDuration, EndCb.questionEnd false⟩, none, none,
         none, 0, none, some (EndCb.questionEnd false), 0, 0, none⟩ := rfl
  have e2 : (tick cfg t1 (start cfg false false t0 initState).1).1
      = ⟨Phase.options, cfg.optionsDuration, none, false,
         some ⟨t1, cfg.optionsDuration, EndCb.optionsTimeout⟩, none, some t1,
         none, 0, none, some EndCb.optionsTimeout, 0, 0, none⟩ := by
    rw [e1]
    unfold tick
    dsimp only
    rw [hz1]
    rfl
  have e3 : (tick cfg t2 (tick cfg t1
        (start cfg false false t0 initState).1).1).1
      = ⟨Phase.result, 0, some (-1), false, none,
         some ⟨t2, cfg.resultDuration, false⟩, some t1, some (t2 - t1), 0,
         none, some EndCb.optionsTimeout, t2, 0, none⟩ := by
    rw [e2]
    unfold tick
    dsimp only
    rw [hz2]
    rfl
  exact ⟨by rw [e1], by rw [e2], by rw [e3], by rw [e3], by rw [e3]; rfl⟩

/-- Witness for C5 with the default durations. -/
theorem c5_timeout_gives_minus_one_witness :
    (tick cfg0 5000 (tick cfg0 1000
        (start cfg0 false false 0 initState).1).1).1.selectedIndex
      = some (-1) ∧
    (tick cfg0 5000 (tick cfg0 1000
        (start cfg0 false false 0 initState).1).1).1.phase = Phase.result :=
  ⟨(c5_timeout_gives_minus_one cfg0 0 1000 5000 (by decide) (by decide)).2.2.2.1,
   (c5_timeout_gives_minus_one cfg0 0 1000 5000 (by decide) (by decide)).2.2.1⟩

end ExerciseFlow

namespace ExerciseFlow

/-- C6: pausing an active countdown snapshots the displayed remaining
time `r` and its end callback; after an arbitrary real delay, resume
restarts a countdown of exactly `r` — ticks strictly before `resume
time + r` do not fire the callback, and the first tick at or after that
moment does; a paused result timeout is snapshotted with remaining time
`resultDuration - (now - resultStartTime)` and restarted with exactly
that duration; and a snapshot with zero remaining time makes `resume`
run the end callback synchronously. -/
theorem c6_pause_resume_timing (cfg : FlowConfig) :
    (∀ (s : FlowState) (tm : CountdownTimer) (cb : EndCb) (r tp tr : Nat),
      s.timer = some tm → s.currentOnEnd = some cb → s.remainingMs = r →
      0 < r → s.resultTimeout = none → s.phase ≠ Phase.result →
      (pause cfg tp s).timer = none ∧
      (pause cfg tp s).pausedRemaining = r ∧
      (pause cfg tp s).pausedOnEnd = some cb ∧
      (resume cfg tr (pause cfg tp s)).2 = [] ∧
      (resume cfg tr (pause cfg tp s)).1.timer = some ⟨tr, r, cb⟩ ∧
      (resume cfg tr (pause cfg tp s)).1.remainingMs = r ∧
      (∀ t', t' < tr + r →
        tick cfg t' (resume cfg tr (pause cfg tp s)).1
          = ({ (resume cfg tr (pause cfg tp s)).1 with
                remainingMs := r - (t' - tr) }, []) ∧
        r - (t' - tr) ≠ 0) ∧
      (∀ t', tr + r ≤ t' →
        tick cfg t' (resume cfg tr (pause cfg tp s)).1
          = runOnEnd cfg cb t'
              { (resume cfg tr (pause cfg tp s)).1 with
                  remainingMs := 0, timer := none })) ∧
    (∀ (s : FlowState) (rt : ResultTimeout) (tp tr : Nat),
      s.phase = Phase.result → s.resultTimeout = some rt →
      (pause cfg tp s).resultTimeout = none ∧
      (pause cfg tp s).pausedResultRemaining
          = cfg.resultDuration - (tp - s.resultStartTime) ∧
      (0 < cfg.resultDuration - (tp - s.resultStartTime) →
        resume cfg tr (pause cfg tp s)
          = ({ pause cfg tp s with
                isPaused := false,
                resultStartTime := tr,
                resultTimeout := some
                  ⟨tr, cfg.resultDuration - (tp - s.resultStartTime), false⟩,
                pausedResultRemaining := 0 }, []))) ∧
    (∀ (s : FlowState) (cb : EndCb) (tr : Nat),
      s.pausedOnEnd = some cb → s.pausedRemaining = 0 →
      (s.phase ≠ Phase.result ∨ s.pausedResultRemaining = 0) →
      resume cfg tr s
        = ({ (runOnEnd cfg cb tr { s with isPaused := false }).1 with
              pausedOnEnd := none },
           (runOnEnd cfg cb tr { s with isPaused := false }).2)) := by
  refine ⟨?_, ?_, ?_⟩
  · intro s tm cb r tp tr htm hco hrm hr hrt hph
    obtain ⟨f1, f2, f3, f4, f5, f6, f7, f8, f9, f10, f11, f12, f13, f14⟩ := s
    simp only [FlowState.timer] at htm
    simp only [FlowState.currentOnEnd] at hco
    simp only [FlowState.remainingMs] at hrm
    simp only [FlowState.resultTimeout] at hrt
    simp only [FlowState.phase] at hph
    subst htm; subst hco; subst hrm; subst hrt
    have ep : pause cfg tp
        (⟨f1, f2, f3, f4, some tm, none, f7, f8, f9, f10, some cb, f12, f13, f14⟩ :
          FlowState)
        = ⟨f1, f2, f3, true, none, none, f7, f8, f2, some cb, some cb,
           f12, f13, f14⟩ := rfl
    rw [ep]
    have er : resume cfg tr
        (⟨f1, f2, f3, true, none, none, f7, f8, f2, some cb, some cb,
          f12, f13, f14⟩ : FlowState)
        = (⟨f1, f2, f3, false, some ⟨tr, f2, cb⟩, none, f7, f8, f2, none,
            some cb, f12, f13, f14⟩, []) := by
      unfold resume
      dsimp only
      rw [if_neg (fun hand => hph hand.1)]
      rw [if_pos hr]
      rfl
    rw [er]
    refine ⟨rfl, rfl, rfl, rfl, rfl, rfl, ?_, ?_⟩
    · intro t' hlt
      have hnz : f2 - (t' - tr) ≠ 0 := by omega
      constructor
      · show tick cfg t' _ = _
        unfold tick
        dsimp only
        rw [if_neg hnz]
      · exact hnz
    · intro t' hge
      have hz : f2 - (t' - tr) = 0 := by omega
      show tick cfg t' _ = _
      unfold tick
      dsimp only
      rw [hz]
      rfl
  · intro s rt tp tr hph hrt
    obtain ⟨f1, f2, f3, f4, f5, f6, f7, f8, f9, f10, f11, f12, f13, f14⟩ := s
    simp only [FlowState.phase] at hph
    simp only [FlowState.resultTimeout] at hrt
    simp only [FlowState.resultStartTime]
    subst hph; subst hrt
    refine ⟨rfl, rfl, ?_⟩
    intro hpos
    have ep : pause cfg tp
        (⟨Phase.result, f2, f3, f4, f5, some rt, f7, f8, f9, f10, f11, f12,
          f13, f14⟩ : FlowState)
        = ⟨Phase.result, f2, f3, true, none, none, f7, f8, f2, f11, f11, f12,
           cfg.resultDuration - (tp - f12), f14⟩ := rfl
    rw [ep]
    unfold resume
    dsimp only
    rw [if_pos ⟨rfl, hpos⟩]
  · intro s cb tr hpo hpr hres
    obtain ⟨f1, f2, f3, f4, f5, f6, f7, f8, f9, f10, f11, f12, f13, f14⟩ := s
    simp only [FlowState.pausedOnEnd] at hpo
    simp only [FlowState.pausedRemaining] at hpr
    subst hpo; subst hpr
    have hcond : ¬ (f1 = Phase.result ∧ f13 > 0) := by
      rcases hres with hph | hpz
      · simp only [FlowState.phase] at hph
        exact fun hand => hph hand.1
      · simp only [FlowState.pausedResultRemaining] at hpz
        subst hpz
        exact fun hand => absurd hand.2 (by simp)
    unfold resume
    dsimp only
    rw [if_neg hcond]
    rw [if_neg (show ¬ (0 : Nat) > 0 by simp)]

end ExerciseFlow

namespace ExerciseFlow

/-- Witness for C6: countdown, result-timeout and synchronous cases. -/
theorem c6_pause_resume_timing_witness :
    (pause cfg0 450
        (tick cfg0 400 (start cfg0 false false 0 initState).1).1).pausedRemaining
      = 600 ∧
    (resume cfg0 10000 (pause cfg0 450
        (tick cfg0 400 (start cfg0 false false 0 initState).1).1)).1.timer
      = some ⟨10000, 600, EndCb.questionEnd false⟩ ∧
    (pause cfg0 500
        (enterResult cfg0 2 false 0 initState)).pausedResultRemaining = 1000 ∧
    resume cfg0 7 { initState with pausedOnEnd := some (EndCb.custom 3) }
      = ({ initState with pausedOnEnd := none }, [Emit.customCall 3]) := by
  have ha := (c6_pause_resume_timing cfg0).1
    (tick cfg0 400 (start cfg0 false false 0 initState).1).1
    ⟨0, 1000, EndCb.questionEnd false⟩ (EndCb.questionEnd false) 600 450 10000
    rfl rfl rfl (by decide) rfl (by decide)
  have hb := (c6_pause_resume_timing cfg0).2.1
    (enterResult cfg0 2 false 0 initState) ⟨0, 1500, false⟩ 500 8000
    rfl rfl
  have hc := (c6_pause_resume_timing cfg0).2.2
    { initState with pausedOnEnd := some (EndCb.custom 3) } (EndCb.custom 3) 7
    rfl rfl (Or.inr rfl)
  exact ⟨ha.2.1, ha.2.2.2.2.1, hb.2.1.trans (by decide), hc.trans (by decide)⟩

end ExerciseFlow
